import Mathlib

/-!
Verification development for the claude-squad session manager.

The Go sources are shallowly embedded below:

* `sha256Bytes` models Go's `crypto/sha256` digest (FIPS 180-4) on byte
  sequences, used by the tmux status monitor.
* `TmuxSession` state and its operations (`hasUpdated`, `tapEnter`,
  `attach`, `cleanupSessions`, the attach-time stdin loop) come from
  `session/tmux/tmux.go`.
* The `home` UI update loop (metadata ticker, instance-naming state,
  creation keys) comes from the `app` package.
* Instance-level helpers whose Go file is not part of the sources at hand
  (`Instance.TapEnter`, `Instance.SetTitle`, `Instance.Start`) are modelled
  from the specification and marked as such.

Machine integers are modelled as `Nat` with explicit reduction modulo
`2 ^ 32` (resp. `2 ^ 64`) where the Go code relies on fixed-width
arithmetic.  Pane content and pty traffic are byte lists (`List Nat`).
-/

/-- 32-bit truncation, modelling Go's `uint32` wraparound. -/
def w32 (n : Nat) : Nat := n % 4294967296

/-- Right rotation of a 32-bit word, as used by SHA-256. -/
def rotr32 (n x : Nat) : Nat := w32 ((x >>> n) ||| (x <<< (32 - n)))

/-- Bitwise complement of a 32-bit word. -/
def not32 (x : Nat) : Nat := Nat.xor x 4294967295

/-- SHA-256 `Ch` function. -/
def sch (e f g : Nat) : Nat := Nat.xor (Nat.land e f) (Nat.land (not32 e) g)

/-- SHA-256 `Maj` function. -/
def smaj (a b c : Nat) : Nat :=
  Nat.xor (Nat.xor (Nat.land a b) (Nat.land a c)) (Nat.land b c)

/-- SHA-256 big sigma 0. -/
def sigmaBig0 (x : Nat) : Nat := Nat.xor (Nat.xor (rotr32 2 x) (rotr32 13 x)) (rotr32 22 x)

/-- SHA-256 big sigma 1. -/
def sigmaBig1 (x : Nat) : Nat := Nat.xor (Nat.xor (rotr32 6 x) (rotr32 11 x)) (rotr32 25 x)

/-- SHA-256 small sigma 0. -/
def sigmaSm0 (x : Nat) : Nat := Nat.xor (Nat.xor (rotr32 7 x) (rotr32 18 x)) (x >>> 3)

/-- SHA-256 small sigma 1. -/
def sigmaSm1 (x : Nat) : Nat := Nat.xor (Nat.xor (rotr32 17 x) (rotr32 19 x)) (x >>> 10)

/-- The 64 SHA-256 round constants (FIPS 180-4, written in decimal). -/
def sha256K : List Nat :=
  [1116352408, 1899447441, 3049323471, 3921009573, 961987163, 1508970993,
   2453635748, 2870763221, 3624381080, 310598401, 607225278, 1426881987,
   1925078388, 2162078206, 2614888103, 3248222580, 3835390401, 4022224774,
   264347078, 604807628, 770255983, 1249150122, 1555081692, 1996064986,
   2554220882, 2821834349, 2952996808, 3210313671, 3336571891, 3584528711,
   113926993, 338241895, 666307205, 773529912, 1294757372, 1396182291,
   1695183700, 1986661051, 2177026350, 2456956037, 2730485921, 2820302411,
   3259730800, 3345764771, 3516065817, 3600352804, 4094571909, 275423344,
   430227734, 506948616, 659060556, 883997877, 958139571, 1322822218,
   1537002063, 1747873779, 1955562222, 2024104815, 2227730452, 2361852424,
   2428436474, 2756734187, 3204031479, 3329325298]

/-- The initial SHA-256 hash state (written in decimal). -/
def sha256H0 : List Nat :=
  [1779033703, 3144134277, 1013904242, 2773480762,
   1359893119, 2600822924, 528734635, 1541459225]

/-- Big-endian byte decomposition of a natural number into `k` bytes. -/
def natToBytesBE (k n : Nat) : List Nat :=
  (List.range k).map (fun i => (n >>> (8 * (k - 1 - i))) % 256)

/-- Recompose bytes (big-endian) into a word. -/
def bytesToWord (bs : List Nat) : Nat := bs.foldl (fun acc b => acc * 256 + b) 0

/-- SHA-256 padding of a message: append `0x80`, zeros to 56 mod 64, then the
bit length as a 64-bit big-endian integer. -/
def sha256Pad (msg : List Nat) : List Nat :=
  let L := msg.length
  let zeros := (119 - L % 64) % 64
  msg ++ [0x80] ++ List.replicate zeros 0 ++ natToBytesBE 8 ((8 * L) % 18446744073709551616)

/-- The 64-entry message schedule for one 64-byte block. -/
def sha256Schedule (block : List Nat) : List Nat :=
  let ws16 := (List.range 16).map (fun j => bytesToWord ((block.drop (4 * j)).take 4))
  (List.range 48).foldl
    (fun ws t =>
      let i := t + 16
      ws ++ [w32 (sigmaSm1 (ws.getD (i - 2) 0) + ws.getD (i - 7) 0 +
                  sigmaSm0 (ws.getD (i - 15) 0) + ws.getD (i - 16) 0)])
    ws16

/-- One round of the SHA-256 compression function on the 8-word state. -/
def sha256Round (ws : List Nat) (st : List Nat) (t : Nat) : List Nat :=
  match st with
  | [a, b, c, d, e, f, g, h] =>
    let t1 := w32 (h + sigmaBig1 e + sch e f g + sha256K.getD t 0 + ws.getD t 0)
    let t2 := w32 (sigmaBig0 a + smaj a b c)
    [w32 (t1 + t2), a, b, c, w32 (d + t1), e, f, g]
  | other => other

/-- Process one 64-byte block: 64 compression rounds, then add to the state. -/
def sha256Block (hst block : List Nat) : List Nat :=
  let ws := sha256Schedule block
  let final := (List.range 64).foldl (sha256Round ws) hst
  List.zipWith (fun x y => w32 (x + y)) hst final

/-- SHA-256 digest of a byte list, modelling Go's `sha256.Sum256` /
`sha256.New` + `Write` + `Sum` as used by the tmux status monitor. -/
def sha256Bytes (msg : List Nat) : List Nat :=
  let padded := sha256Pad msg
  let nblocks := padded.length / 64
  let blocks := (List.range nblocks).map (fun i => (padded.drop (64 * i)).take 64)
  let hFinal := blocks.foldl sha256Block sha256H0
  (hFinal.map (natToBytesBE 4)).flatten

set_option maxRecDepth 40000

/-- Does the first list start with the second one?  (Byte- or char-level
`strings.HasPrefix`.) -/
def listStartsWith [BEq α] : List α → List α → Bool
  | _, [] => true
  | [], _ :: _ => false
  | a :: as, b :: bs => a == b && listStartsWith as bs

/-- Does the first list contain the second as a contiguous sublist?
(Models Go `strings.Contains` on byte strings.) -/
def listContainsSub [BEq α] (l pat : List α) : Bool :=
  match l with
  | [] => pat.isEmpty
  | _ :: as => listStartsWith l pat || listContainsSub as pat

/-- Bytes of an ASCII string (used only to write concrete byte lists
readably; all literals passed to it are ASCII). -/
def strBytes (s : String) : List Nat := s.data.map Char.toNat

/-- Known-answer check: SHA-256 of the empty message (digest bytes in decimal). -/
example : sha256Bytes [] =
    [227, 176, 196, 66, 152, 252, 28, 20, 154, 251, 244, 200,
     153, 111, 185, 36, 39, 174, 65, 228, 100, 155, 147, 76,
     164, 149, 153, 27, 120, 82, 184, 85] := by decide

/-- Known-answer check: SHA-256 of "abc" (digest bytes in decimal). -/
example : sha256Bytes [97, 98, 99] =
    [186, 120, 22, 191, 143, 1, 207, 234, 65, 65, 64, 222,
     93, 174, 34, 35, 176, 3, 97, 163, 150, 23, 122, 156,
     180, 16, 255, 97, 242, 0, 21, 173] := by decide

/-!
The tmux session layer, from `session/tmux/tmux.go`.
-/

/-- The generic assistant confirmation marker scanned for by `HasUpdated`
(tmux.go line 207): the bytes of "Do you want". -/
def promptMarker : List Nat := strBytes ("Do you want")

/-- The literal session/branch prefix `TmuxPrefix` (tmux.go line 58). -/
def tmuxPrefixStr : String := "claudesquad-"

/-- Characters matched by Go RE2 `\s`: `[\t\n\f\r ]`. -/
def goIsSpace (c : Char) : Bool :=
  c == ' ' || c == '\t' || c == '\n' || c == '\r' || c.toNat == 12

/-- `toClaudeSquadTmuxName` (tmux.go lines 60-63): prepend the prefix and
replace every run of whitespace by the empty string — equivalently, delete
every whitespace character. -/
def toClaudeSquadTmuxName (s : String) : String :=
  tmuxPrefixStr ++ String.mk (s.data.filter (fun c => !goIsSpace c))

/-- The status monitor (tmux.go lines 158-165): it stores the SHA-256 hash
of the previously captured pane content; a fresh monitor stores `nil`,
modelled as the empty byte list. -/
structure StatusMonitor where
  prevOutputHash : List Nat
deriving Repr, DecidableEq

/-- A fresh status monitor, as built by `newStatusMonitor`. -/
def StatusMonitor.new : StatusMonitor := { prevOutputHash := [] }

/-- Result of `TmuxSession.HasUpdated`: the two returned booleans together
with the monitor state after the call. -/
structure HUpdRes where
  updated : Bool
  hasPrompt : Bool
  monitor : StatusMonitor
deriving Repr, DecidableEq

/-- `TmuxSession.HasUpdated` (tmux.go lines 200-214).  The capture argument
is the outcome of `CapturePaneContent`: `none` models a capture error, in
which case the error is logged and `(false, false)` is returned with the
monitor untouched.  Otherwise the content is hashed and compared with the
stored hash, which is updated whenever it differs; `hasPrompt` reports
independently whether the content contains "Do you want". -/
def tmuxHasUpdated (m : StatusMonitor) (capture : Option (List Nat)) : HUpdRes :=
  match capture with
  | none => { updated := false, hasPrompt := false, monitor := m }
  | some content =>
    let hasPrompt := listContainsSub content promptMarker
    if sha256Bytes content ≠ m.prevOutputHash then
      { updated := true, hasPrompt, monitor := { prevOutputHash := sha256Bytes content } }
    else
      { updated := false, hasPrompt, monitor := m }

/-- The tmux session state.  `ptyWrites` is the log of byte chunks written
to the attach pty; the transient fields (`oldState`, `attachChOpen`,
`ctxCancelSet`, `wgSet`, `readersStarted`) model the fields set by `Attach`
and cleared by `Detach` (tmux.go lines 44-56). -/
structure TmuxSession where
  name : String
  sanitizedName : String
  monitor : StatusMonitor
  ptyWrites : List (List Nat)
  oldState : Option Nat
  attachChOpen : Bool
  ctxCancelSet : Bool
  wgSet : Bool
  readersStarted : Bool
deriving Repr, DecidableEq

/-- `NewTmuxSession` (tmux.go lines 65-70): records the name and its
sanitized form; no transient attach state is present. -/
def newTmuxSession (name : String) : TmuxSession :=
  { name := name
    sanitizedName := toClaudeSquadTmuxName name
    monitor := StatusMonitor.new
    ptyWrites := []
    oldState := none
    attachChOpen := false
    ctxCancelSet := false
    wgSet := false
    readersStarted := false }

/-- `TmuxSession.TapEnter` (tmux.go lines 176-182): writes the byte `0x0D`
to the pty. -/
def TmuxSession.tapEnter (t : TmuxSession) : TmuxSession :=
  { t with ptyWrites := t.ptyWrites ++ [[0x0D]] }

/-- `TmuxSession.TapDAndEnter` (tmux.go lines 185-191): writes `0x44 0x0D`
to the pty. -/
def TmuxSession.tapDAndEnter (t : TmuxSession) : TmuxSession :=
  { t with ptyWrites := t.ptyWrites ++ [[0x44, 0x0D]] }

/-- `TmuxSession.SendKeys` (tmux.go lines 193-196): writes raw bytes to the
pty. -/
def TmuxSession.sendKeys (t : TmuxSession) (keys : List Nat) : TmuxSession :=
  { t with ptyWrites := t.ptyWrites ++ [keys] }

/-- `TmuxSession.Attach` (tmux.go lines 216-287).  The outcome of
`term.MakeRaw` is passed in (`.error e` when raw mode cannot be entered,
`.ok st` with the saved terminal state otherwise).  On failure the error is
returned at once — before any transient field is assigned or any goroutine
is spawned — so the session state is returned unchanged.  On success the
saved state, attach channel, context/cancel pair and wait group are
installed and the two reader goroutines plus the window-size monitor are
started. -/
def TmuxSession.attach (t : TmuxSession) (makeRawRes : Except String Nat) :
    Option String × TmuxSession :=
  match makeRawRes with
  | .error e => (some ("error making terminal raw: " ++ e), t)
  | .ok st =>
    (none,
     { t with
       oldState := some st
       attachChOpen := true
       wgSet := true
       ctxCancelSet := true
       readersStarted := true })

/-!
The stdin-forwarding goroutine started by `Attach` (tmux.go lines 238-283),
embedded as a fold over the sequence of stdin read results.  Each
successful read carries the time (in milliseconds since attach) at which
the 50 ms nuke-window check runs for it; the window channel is closed 50 ms
after attach, so the check observes a closed channel exactly when the time
is at least 50.
-/

/-- One outcome of `os.Stdin.Read`. -/
inductive StdinEv where
  | readBytes (t : Nat) (bs : List Nat)
  | readEOF
  | readErr
deriving Repr, DecidableEq

/-- What the loop body did with one read. -/
inductive StdinAct where
  | nuked (bs : List Nat)
  | forwarded (bs : List Nat)
  | detached
deriving Repr, DecidableEq

/-- The stdin loop body: bytes read before the 50 ms window has elapsed are
logged and dropped (`continue`); afterwards, a read of exactly the single
byte `0x11` (Ctrl-Q, ASCII 17) calls `Detach` and returns; any other read
is written to the pty.  EOF breaks the loop; other read errors continue. -/
def stdinLoop : List StdinEv → List StdinAct
  | [] => []
  | .readEOF :: _ => []
  | .readErr :: rest => stdinLoop rest
  | .readBytes t bs :: rest =>
    if t < 50 then .nuked bs :: stdinLoop rest
    else if bs = [17] then [.detached]
    else .forwarded bs :: stdinLoop rest

/-!
`CleanupSessions` (tmux.go lines 400-424).  The regular expression is
`^claudesquad-\d+` compiled without multiline mode, so `^` anchors at the
start of the whole `tmux ls` output and `FindAllString` can produce at most
one match: the prefix followed by a maximal nonempty run of ASCII digits at
position 0.  Each match is then passed to `tmux kill-session -t <match>`,
which matches sessions by name prefix (see the comment at
`DoesSessionExist`, tmux.go line 371).
-/

/-- Maximal leading run of ASCII digits. -/
def leadingDigits : List Char → List Char
  | [] => []
  | c :: rest => if c.isDigit then c :: leadingDigits rest else []

/-- The unique possible match of `^claudesquad-\d+` against the output. -/
def findSessionMatch (out : String) : Option String :=
  if listStartsWith out.data tmuxPrefixStr.data then
    let ds := leadingDigits (out.data.drop tmuxPrefixStr.data.length)
    if ds.isEmpty then none else some (String.mk (tmuxPrefixStr.data ++ ds))
  else none

/-- `tmux kill-session -t target`: removes the sessions whose name has
`target` as a prefix, failing when nothing matches. -/
def killSessionCmd (sessions : List String) (target : String) :
    Except String (List String) :=
  if sessions.any (fun s => listStartsWith s.data target.data) then
    .ok (sessions.filter (fun s => !listStartsWith s.data target.data))
  else .error ("can not find session: " ++ target)

/-- `CleanupSessions`: `lsRes` is the outcome of `tmux ls` (`.error code`
when it exited nonzero, `.ok output` otherwise) and `sessions` the sessions
that exist on the server.  An `ls` failure with exit code 1 is treated as
"no sessions exist" and reported as success. -/
def cleanupSessions (lsRes : Except Nat String) (sessions : List String) :
    Except String (List String) :=
  match lsRes with
  | .error code =>
    if code == 1 then .ok sessions
    else .error ("failed to list tmux sessions")
  | .ok output =>
    match findSessionMatch output with
    | none => .ok sessions
    | some m => killSessionCmd sessions m

/-!
The Instance layer.  The `session` package file defining `Instance` is not
among the sources at hand; the operations below that the claims need are
therefore modelled from the specification (sections 3, 4.3 and 4.5) and
say so in their doc comments.  The fields mirror the data model of the
specification; the pty write log lives in the owned tmux session.
-/

/-- The Instance status enumeration (`Running`, `Ready`, `Loading`,
`Paused`). -/
inductive InstStatus where
  | running
  | ready
  | loading
  | paused
deriving Repr, DecidableEq

/-- Cached diff statistics `{added, removed, content}`. -/
structure DiffStats where
  added : Nat
  removed : Nat
  content : String
deriving Repr, DecidableEq

/-- The Instance record: title, status, `started`, `auto_yes`, the owned
tmux session and the cached diff stats. -/
structure Instance where
  title : String
  status : InstStatus
  started : Bool
  autoYes : Bool
  tmux : TmuxSession
  diffStats : Option DiffStats
deriving Repr, DecidableEq

/-- Modelled from the spec: an Instance is paused exactly when its status
is `Paused` (state machine of section 4.3). -/
def Instance.paused (i : Instance) : Bool := i.status == .paused

/-- Modelled from the spec: `SetStatus` stores the given status. -/
def Instance.setStatus (i : Instance) (st : InstStatus) : Instance :=
  { i with status := st }

/-- Modelled from the spec: `Instance.TapEnter` is "used by the ticker to
auto-accept confirmations when `auto_yes`" (section 4.3), so it forwards to
the tmux-session `TapEnter` (a `0x0D` write) only when `auto_yes` is set
and does nothing otherwise. -/
def Instance.tapEnter (i : Instance) : Instance :=
  if i.autoYes then { i with tmux := i.tmux.tapEnter } else i

/-- Modelled from the spec: `Instance.HasUpdated` "forwards to PTY Session"
(section 4.3). -/
def Instance.hasUpdated (i : Instance) (capture : Option (List Nat)) :
    Bool × Bool × Instance :=
  let r := tmuxHasUpdated i.tmux.monitor capture
  (r.updated, r.hasPrompt, { i with tmux := { i.tmux with monitor := r.monitor } })

/-- Modelled from the spec: `UpdateDiffStats` refreshes the cached diff
from the worktree; `res` is the outcome of the underlying diff computation
and any error is returned to the caller (the ticker logs it). -/
def Instance.updateDiffStats (i : Instance) (res : Except String DiffStats) :
    Instance × Option String :=
  match res with
  | .ok d => ({ i with diffStats := some d }, none)
  | .error e => (i, some e)

/-!
The metadata ticker (`app` package, `Update` on `tickUpdateMetadataMessage`,
lines 169-188): every 500 ms, for each started, non-paused instance it asks
`HasUpdated`, sets the status to Running on updates, otherwise taps Enter
when a prompt is showing and sets Ready when not, and finally refreshes the
diff stats, logging (never propagating) any diff error.  The per-instance
environment inputs for one tick are the capture result and diff result.
-/

/-- Per-instance environment inputs of one metadata tick. -/
structure TickInput where
  capture : Option (List Nat)
  diffRes : Except String DiffStats

/-- One metadata-tick step on one instance, returning the updated instance
together with the warning/error lines logged during the step.  Instances
that are not started or are paused are skipped. -/
def tickInstance (i : Instance) (inp : TickInput) : Instance × List String :=
  if !i.started || i.paused then (i, [])
  else
    let (updated, prompt, i1) := i.hasUpdated inp.capture
    let captureLogs :=
      match inp.capture with
      | none => ["error capturing pane content in status monitor"]
      | some _ => []
    let i2 :=
      if updated then i1.setStatus .running
      else if prompt then i1.tapEnter
      else i1.setStatus .ready
    let (i3, diffErr) := i2.updateDiffStats inp.diffRes
    let diffLogs :=
      match diffErr with
      | some e => ["could not update diff stats: " ++ e]
      | none => []
    (i3, captureLogs ++ diffLogs)

/-- One whole metadata tick over the instance list, with one `TickInput`
per instance. -/
def tickAll (instances : List Instance) (inputs : List TickInput) : List Instance :=
  (instances.zip inputs).map (fun p => (tickInstance p.1 p.2).1)

/-!
The instance-naming and instance-creation key handlers of the `home` UI
(`handleKeyPress`, `app` package).  UI error banners are modelled by an
inductive tag rather than by their literal message text; the Go messages
are given in the constructor comments.
-/

/-- Error cases of the spec-modelled `Instance.SetTitle`. -/
inductive SetTitleErr where
  | alreadyStarted
  | emptyTitle
  | tooLong
  | duplicate
deriving Repr, DecidableEq

/-- Modelled from the spec: `SetTitle(title)` "validates nonempty, ≤32
chars, unique; computes derived sanitized names; disallowed after
`started`" (section 4.3).  `others` are the titles of the other live
instances, against which uniqueness is checked.  On success the title and
the derived tmux names are stored. -/
def Instance.setTitle (i : Instance) (others : List String) (t : String) :
    Except SetTitleErr Instance :=
  if i.started then .error .alreadyStarted
  else if t = "" then .error .emptyTitle
  else if 32 < t.length then .error .tooLong
  else if others.contains t then .error .duplicate
  else .ok { i with
             title := t
             tmux := { i.tmux with name := t, sanitizedName := toClaudeSquadTmuxName t } }

/-- Modelled from the spec: `Start(first_time)` performs worktree and tmux
setup and sets `started = true` on success (section 4.3); `res` is the
outcome of that setup work. -/
def Instance.start (i : Instance) (res : Except String Unit) :
    Except String Instance :=
  match res with
  | .error e => .error e
  | .ok _ => .ok { i with started := true }

/-- UI error banner tags shown by `showErrorMessageForShortTime`. -/
inductive UIErr where
  /-- "title cannot be empty" -/
  | emptyTitle
  /-- "title cannot be longer than 32 characters" -/
  | titleTooLong
  /-- "you can not create more than 10 instances" (Go text uses a
  contraction) -/
  | overInstanceLimit
  /-- an error returned by `Instance.SetTitle` -/
  | setTitleFailed (e : SetTitleErr)
  /-- an error returned by `Instance.Start` -/
  | startFailed (e : String)
  /-- an error returned by `storage.SaveInstances` -/
  | saveFailed (e : String)
  /-- an error returned by `session.NewInstance` -/
  | newInstanceFailed (e : String)
deriving Repr, DecidableEq

/-- The UI states `stateDefault`, `stateNew`, `statePrompt`. -/
inductive UIMode where
  | main
  | naming
  | prompting
deriving Repr, DecidableEq

/-- The parts of the `home` model the creation/naming claims are about:
the instance list (`ui.List` order: `AddInstance` appends, the instance
being named is the last element), the UI state, the error banner, the
`promptAfterName` flag and the `autoYes` launch flag. -/
structure AppModel where
  instances : List Instance
  mode : UIMode
  errMsg : Option UIErr
  promptAfterName : Bool
  autoYes : Bool
deriving Repr, DecidableEq

/-- `GlobalInstanceLimit` (`app` package, line 21). -/
def GlobalInstanceLimit : Nat := 10

/-- Replace the last element of a list. -/
def List.setLast (l : List α) (a : α) : List α := l.dropLast ++ [a]

/-- Key events handled while naming a new instance (`stateNew`). -/
inductive NameKey where
  | submitName
  | runesKey (r : String)
  | spaceKey
  | backspaceKey
  | escKey
  | ctrlC
deriving Repr, DecidableEq

/-- The `stateNew` branch of `handleKeyPress` (`app` package, lines
244-317), acting on the last instance of the list (the one being named).
`startRes` is the outcome of the setup work done by `Instance.Start` and
`saveRes` the outcome of `storage.SaveInstances`; both are consulted only
on submit.  Go's `len` counts bytes, hence `String.utf8ByteSize` for the
32-byte gate; on the ASCII titles of the claims this equals the character
count.  Backspace drops the last character (the Go code drops the last
byte; these agree on ASCII titles). -/
def handleNameKey (m : AppModel) (k : NameKey)
    (startRes saveRes : Except String Unit) : AppModel :=
  match m.instances.getLast? with
  | none => m
  | some inst =>
    let others := (m.instances.dropLast).map (fun i => i.title)
    match k with
    | .ctrlC =>
      { m with mode := .main, promptAfterName := false,
               instances := m.instances.dropLast }
    | .submitName =>
      if inst.title = "" then { m with errMsg := some .emptyTitle }
      else
        match inst.start startRes with
        | .error e =>
          { m with instances := m.instances.dropLast, mode := .main,
                   errMsg := some (.startFailed e) }
        | .ok started =>
          let started :=
            if m.autoYes then { started with autoYes := true } else started
          let m1 := { m with instances := m.instances.setLast started }
          match saveRes with
          | .error e => { m1 with errMsg := some (.saveFailed e) }
          | .ok _ =>
            if m1.promptAfterName then
              { m1 with mode := .prompting, promptAfterName := false }
            else { m1 with mode := .main }
    | .runesKey r =>
      if 32 ≤ inst.title.utf8ByteSize then { m with errMsg := some .titleTooLong }
      else
        match inst.setTitle others (inst.title ++ r) with
        | .error e => { m with errMsg := some (.setTitleFailed e) }
        | .ok inst1 => { m with instances := m.instances.setLast inst1 }
    | .spaceKey =>
      match inst.setTitle others (inst.title ++ " ") with
      | .error e => { m with errMsg := some (.setTitleFailed e) }
      | .ok inst1 => { m with instances := m.instances.setLast inst1 }
    | .backspaceKey =>
      if inst.title = "" then m
      else
        match inst.setTitle others (String.mk inst.title.data.dropLast) with
        | .error e => { m with errMsg := some (.setTitleFailed e) }
        | .ok inst1 => { m with instances := m.instances.setLast inst1 }
    | .escKey =>
      { m with instances := m.instances.dropLast, mode := .main }

/-- The `KeyNew` / `KeyPrompt` branches of `handleKeyPress` (`app`
package, lines 360-401): refuse with the over-limit banner when
`GlobalInstanceLimit` instances already exist, otherwise append a fresh
unnamed instance (the outcome of `session.NewInstance` is `newRes`) and
enter the naming state; `KeyPrompt` additionally arms `promptAfterName`. -/
def handleCreateKey (m : AppModel) (isPrompt : Bool)
    (newRes : Except String Instance) : AppModel :=
  if GlobalInstanceLimit ≤ m.instances.length then
    { m with errMsg := some .overInstanceLimit }
  else
    match newRes with
    | .error e => { m with errMsg := some (.newInstanceFailed e) }
    | .ok inst =>
      { m with instances := m.instances ++ [inst], mode := .naming,
               promptAfterName := if isPrompt then true else m.promptAfterName }

/-!
Helper lemmas about the status monitor.
-/

/-- When the hash of the captured content differs from the stored hash,
`HasUpdated` reports an update and stores the new hash. -/
theorem tmuxHasUpdated_true (m : StatusMonitor) (c : List Nat)
    (h : sha256Bytes c ≠ m.prevOutputHash) :
    tmuxHasUpdated m (some c) =
      { updated := true, hasPrompt := listContainsSub c promptMarker,
        monitor := { prevOutputHash := sha256Bytes c } } := by
  simp [tmuxHasUpdated, h]

/-- When the hash of the captured content equals the stored hash,
`HasUpdated` reports no update and leaves the monitor unchanged. -/
theorem tmuxHasUpdated_false (m : StatusMonitor) (c : List Nat)
    (h : sha256Bytes c = m.prevOutputHash) :
    tmuxHasUpdated m (some c) =
      { updated := false, hasPrompt := listContainsSub c promptMarker,
        monitor := m } := by
  simp [tmuxHasUpdated, h]

/-- After any successful capture, the stored hash is the hash of that
capture (it is stored on change and was already equal otherwise). -/
theorem tmuxHasUpdated_stores_hash (m : StatusMonitor) (c : List Nat) :
    (tmuxHasUpdated m (some c)).monitor.prevOutputHash = sha256Bytes c := by
  by_cases h : sha256Bytes c = m.prevOutputHash
  · rw [tmuxHasUpdated_false m c h, h]
  · rw [tmuxHasUpdated_true m c h]

/-- Claim C4: after a call on content `c1`, a call on changed content `c2`
(the change being visible to SHA-256) reports `updated = true` and stores
the hash of `c2`; an immediately following call on the same content `c2`
reports `updated = false`.  Independently, every successful call reports
`has_prompt` exactly when the content contains the bytes of "Do you want".
-/
theorem hasUpdated_change_detection (m0 : StatusMonitor) (c1 c2 : List Nat)
    (_hne : c1 ≠ c2) (hh : sha256Bytes c1 ≠ sha256Bytes c2) :
    ((tmuxHasUpdated (tmuxHasUpdated m0 (some c1)).monitor (some c2)).updated = true
     ∧ (tmuxHasUpdated (tmuxHasUpdated m0 (some c1)).monitor (some c2)).monitor.prevOutputHash
         = sha256Bytes c2
     ∧ (tmuxHasUpdated
          (tmuxHasUpdated (tmuxHasUpdated m0 (some c1)).monitor (some c2)).monitor
          (some c2)).updated = false)
    ∧ (∀ (m : StatusMonitor) (c : List Nat),
        (tmuxHasUpdated m (some c)).hasPrompt = listContainsSub c promptMarker) := by
  constructor
  · have h1 := tmuxHasUpdated_stores_hash m0 c1
    have hcond : sha256Bytes c2 ≠ (tmuxHasUpdated m0 (some c1)).monitor.prevOutputHash := by
      rw [h1]; exact fun h => hh h.symm
    rw [tmuxHasUpdated_true _ _ hcond]
    refine ⟨rfl, rfl, ?_⟩
    show (tmuxHasUpdated { prevOutputHash := sha256Bytes c2 } (some c2)).updated = false
    rw [tmuxHasUpdated_false { prevOutputHash := sha256Bytes c2 } c2 rfl]
  · intro m c
    by_cases h : sha256Bytes c = m.prevOutputHash
    · rw [tmuxHasUpdated_false m c h]
    · rw [tmuxHasUpdated_true m c h]

/-- Witness for C4 at the concrete contents `""` and `"a"`. -/
theorem hasUpdated_change_detection_witness :
    ([] : List Nat) ≠ strBytes ("a") ∧
    sha256Bytes [] ≠ sha256Bytes (strBytes ("a")) ∧
    ((tmuxHasUpdated (tmuxHasUpdated StatusMonitor.new (some [])).monitor
        (some (strBytes ("a")))).updated = true
     ∧ (tmuxHasUpdated (tmuxHasUpdated StatusMonitor.new (some [])).monitor
          (some (strBytes ("a")))).monitor.prevOutputHash = sha256Bytes (strBytes ("a"))
     ∧ (tmuxHasUpdated
          (tmuxHasUpdated (tmuxHasUpdated StatusMonitor.new (some [])).monitor
            (some (strBytes ("a")))).monitor
          (some (strBytes ("a")))).updated = false) :=
  ⟨by decide, by decide,
   (hasUpdated_change_detection StatusMonitor.new [] (strBytes ("a"))
      (by decide) (by decide)).1⟩

/-- Refreshing diff stats touches only the cached diff stats field. -/
theorem updateDiffStats_preserves (i : Instance) (res : Except String DiffStats) :
    (i.updateDiffStats res).1.tmux = i.tmux ∧
    (i.updateDiffStats res).1.status = i.status ∧
    (i.updateDiffStats res).1.started = i.started := by
  cases res <;> simp [Instance.updateDiffStats]

/-- Claim C1: on a metadata tick where the capture succeeds, its hash
equals the stored hash (no update) and the content shows a confirmation
prompt, an instance with `auto_yes = false` gets nothing written to its
pty and keeps its `Ready` status. -/
theorem ticker_autoyes_off_no_tap (i : Instance) (inp : TickInput) (c : List Nat)
    (hs : i.started = true) (hp : i.paused = false) (ha : i.autoYes = false)
    (hc : inp.capture = some c)
    (hhash : sha256Bytes c = i.tmux.monitor.prevOutputHash)
    (hpr : listContainsSub c promptMarker = true)
    (hready : i.status = InstStatus.ready) :
    (tickInstance i inp).1.tmux.ptyWrites = i.tmux.ptyWrites ∧
    (tickInstance i inp).1.status = InstStatus.ready := by
  have hres := tmuxHasUpdated_false i.tmux.monitor c hhash
  cases hdr : inp.diffRes <;>
    simp [tickInstance, Instance.hasUpdated, hs, hp, hc, hres, hpr, ha, hready,
          Instance.tapEnter, Instance.updateDiffStats, Instance.setStatus, hdr]

/-- A started instance showing a prompt; `auto_yes` is off, the stored
hash already matches the current pane content and the status is `Ready`. -/
def cexC1Inst : Instance :=
  { title := "alpha"
    status := .ready
    started := true
    autoYes := false
    tmux := { newTmuxSession ("alpha") with
              monitor := { prevOutputHash :=
                sha256Bytes (strBytes ("Do you want to proceed?")) } }
    diffStats := none }

/-- Witness for C1 at a concrete instance and tick input. -/
theorem ticker_autoyes_off_no_tap_witness :
    (tickInstance cexC1Inst
       { capture := some (strBytes ("Do you want to proceed?")),
         diffRes := Except.ok { added := 1, removed := 0, content := "d" } }).1.tmux.ptyWrites
      = cexC1Inst.tmux.ptyWrites ∧
    (tickInstance cexC1Inst
       { capture := some (strBytes ("Do you want to proceed?")),
         diffRes := Except.ok { added := 1, removed := 0, content := "d" } }).1.status
      = InstStatus.ready :=
  ticker_autoyes_off_no_tap cexC1Inst _ (strBytes ("Do you want to proceed?"))
    rfl rfl rfl rfl rfl (by decide) rfl

/-- Claim C2: on a metadata tick, a started, non-paused instance is driven
by `(updated, has_prompt) = HasUpdated()`: an update sets the status to
Running (and writes nothing), otherwise a prompt routes through
`Instance.TapEnter` (which leaves the status alone and writes `0x0D`
exactly when `auto_yes`), otherwise the status is set to Ready; finally
the diff stats are refreshed, a successful diff being cached and a diff
error being logged while the tick still completes. -/
theorem ticker_step_spec (i : Instance) (inp : TickInput)
    (hs : i.started = true) (hp : i.paused = false) :
    ((tmuxHasUpdated i.tmux.monitor inp.capture).updated = true →
       (tickInstance i inp).1.status = InstStatus.running ∧
       (tickInstance i inp).1.tmux.ptyWrites = i.tmux.ptyWrites) ∧
    ((tmuxHasUpdated i.tmux.monitor inp.capture).updated = false →
     (tmuxHasUpdated i.tmux.monitor inp.capture).hasPrompt = true →
       (tickInstance i inp).1.status = i.status ∧
       (tickInstance i inp).1.tmux.ptyWrites =
         (if i.autoYes then i.tmux.ptyWrites ++ [[0x0D]] else i.tmux.ptyWrites)) ∧
    ((tmuxHasUpdated i.tmux.monitor inp.capture).updated = false →
     (tmuxHasUpdated i.tmux.monitor inp.capture).hasPrompt = false →
       (tickInstance i inp).1.status = InstStatus.ready ∧
       (tickInstance i inp).1.tmux.ptyWrites = i.tmux.ptyWrites) ∧
    (∀ d, inp.diffRes = Except.ok d → (tickInstance i inp).1.diffStats = some d) ∧
    (∀ e, inp.diffRes = Except.error e →
       (tickInstance i inp).1.diffStats = i.diffStats ∧
       ("could not update diff stats: " ++ e) ∈ (tickInstance i inp).2) := by
  refine ⟨?_, ?_, ?_, ?_, ?_⟩
  · intro hu
    cases hdr : inp.diffRes <;>
      simp [tickInstance, Instance.hasUpdated, hs, hp, hu, hdr,
            Instance.updateDiffStats, Instance.setStatus]
  · intro hu hpr
    cases hdr : inp.diffRes <;>
      cases hay : i.autoYes <;>
        simp [tickInstance, Instance.hasUpdated, hs, hp, hu, hpr, hdr, hay,
              Instance.tapEnter, TmuxSession.tapEnter,
              Instance.updateDiffStats, Instance.setStatus]
  · intro hu hpr
    cases hdr : inp.diffRes <;>
      simp [tickInstance, Instance.hasUpdated, hs, hp, hu, hpr, hdr,
            Instance.updateDiffStats, Instance.setStatus]
  · intro d hdr
    simp [tickInstance, Instance.hasUpdated, hs, hp, hdr,
          Instance.updateDiffStats, Instance.setStatus, Instance.tapEnter]
  · intro e hdr
    constructor
    · simp only [tickInstance, Instance.hasUpdated, hs, hp, hdr,
                 Instance.updateDiffStats, Instance.setStatus, Instance.tapEnter,
                 Bool.not_true, Bool.false_or]
      split_ifs <;> rfl
    · simp [tickInstance, Instance.hasUpdated, hs, hp, hdr,
            Instance.updateDiffStats, Instance.setStatus, Instance.tapEnter]

/-- A started instance whose stored hash matches an empty capture. -/
def cexC2Inst : Instance :=
  { title := "beta"
    status := .running
    started := true
    autoYes := false
    tmux := { newTmuxSession ("beta") with
              monitor := { prevOutputHash := sha256Bytes [] } }
    diffStats := none }

/-- Witness for C2: at a concrete instance whose stored hash matches the
captured content (no update, no prompt), the tick sets the status to
Ready. -/
theorem ticker_step_spec_witness :
    cexC2Inst.started = true ∧ cexC2Inst.paused = false ∧
    ((tickInstance cexC2Inst
        { capture := some [], diffRes := Except.error ("boom") }).1.status
       = InstStatus.ready ∧
     (tickInstance cexC2Inst
        { capture := some [], diffRes := Except.error ("boom") }).1.tmux.ptyWrites
       = cexC2Inst.tmux.ptyWrites) :=
  ⟨rfl, rfl,
   (ticker_step_spec cexC2Inst
      { capture := some [], diffRes := Except.error ("boom") } rfl rfl).2.2.1
     (by decide) (by decide)⟩

/-- A started, non-paused instance currently in `Running`. -/
def cexC3Inst : Instance :=
  { title := "gamma"
    status := .running
    started := true
    autoYes := false
    tmux := newTmuxSession ("gamma")
    diffStats := none }

/-- Counterexample to claim C3: on a tick whose capture fails, the status
field is not left unchanged — `HasUpdated` returns `(false, false)` and the
tick sets the status of this `Running` instance to `Ready`. -/
theorem ticker_capture_error_flips_status :
    cexC3Inst.status = InstStatus.running ∧
    (tickInstance cexC3Inst
       { capture := none,
         diffRes := Except.ok { added := 0, removed := 0, content := "" } }).1.status
      = InstStatus.ready ∧
    InstStatus.ready ≠ InstStatus.running := by decide

/-- Claim C3 as amended: if the capture fails on a metadata tick for a
started, non-paused instance, the error is logged and `HasUpdated` reports
`(false, false)`, so the tick sets the status to `Ready` (whatever it was),
writes nothing to the pty and leaves the stored hash unchanged. -/
theorem ticker_capture_error_sets_ready (i : Instance) (inp : TickInput)
    (hs : i.started = true) (hp : i.paused = false)
    (hc : inp.capture = none) :
    (tickInstance i inp).1.status = InstStatus.ready ∧
    (tickInstance i inp).1.tmux.ptyWrites = i.tmux.ptyWrites ∧
    (tickInstance i inp).1.tmux.monitor = i.tmux.monitor ∧
    "error capturing pane content in status monitor" ∈ (tickInstance i inp).2 := by
  cases hdr : inp.diffRes <;>
    simp [tickInstance, Instance.hasUpdated, tmuxHasUpdated, hs, hp, hc, hdr,
          Instance.updateDiffStats, Instance.setStatus]

/-- Witness for the amended C3 at a concrete instance. -/
theorem ticker_capture_error_sets_ready_witness :
    cexC3Inst.started = true ∧ cexC3Inst.paused = false ∧
    ((tickInstance cexC3Inst
        { capture := none, diffRes := Except.error ("diff failed") }).1.status
       = InstStatus.ready ∧
     (tickInstance cexC3Inst
        { capture := none, diffRes := Except.error ("diff failed") }).1.tmux.ptyWrites
       = cexC3Inst.tmux.ptyWrites ∧
     (tickInstance cexC3Inst
        { capture := none, diffRes := Except.error ("diff failed") }).1.tmux.monitor
       = cexC3Inst.tmux.monitor ∧
     "error capturing pane content in status monitor" ∈
       (tickInstance cexC3Inst
          { capture := none, diffRes := Except.error ("diff failed") }).2) :=
  ⟨rfl, rfl,
   ticker_capture_error_sets_ready cexC3Inst
     { capture := none, diffRes := Except.error ("diff failed") } rfl rfl rfl⟩

/-- Counterexample to claim C5: the derivation function strips whitespace,
so the two distinct titles "a b" and "ab" map to the same sanitized name
`claudesquad-ab`. -/
theorem sanitized_name_collision :
    toClaudeSquadTmuxName ("a b") = toClaudeSquadTmuxName ("ab") ∧
    ("a b" : String) ≠ "ab" := by
  constructor
  · rfl
  · decide

/-- Claim C5 as amended: on whitespace-free titles the derivation map
`title ↦ "claudesquad-" ++ strip(title)` is injective — distinct titles
yield distinct sanitized names.  (Titles differing only in whitespace
collide, as `sanitized_name_collision` shows.) -/
theorem sanitized_name_injective_spacefree (s t : String)
    (hs : s.data.all (fun c => !goIsSpace c) = true)
    (ht : t.data.all (fun c => !goIsSpace c) = true)
    (hne : s ≠ t) :
    toClaudeSquadTmuxName s ≠ toClaudeSquadTmuxName t := by
  have fs : s.data.filter (fun c => !goIsSpace c) = s.data :=
    List.filter_eq_self.mpr (by simpa [List.all_eq_true] using hs)
  have ft : t.data.filter (fun c => !goIsSpace c) = t.data :=
    List.filter_eq_self.mpr (by simpa [List.all_eq_true] using ht)
  intro h
  apply hne
  have hd : (toClaudeSquadTmuxName s).data = (toClaudeSquadTmuxName t).data :=
    congrArg String.data h
  simp only [toClaudeSquadTmuxName, String.data_append, fs, ft] at hd
  have : s.data = t.data := List.append_cancel_left hd
  cases s; cases t; exact congrArg String.mk this

/-- Witness for the amended C5 at the whitespace-free titles "ab", "cd". -/
theorem sanitized_name_injective_spacefree_witness :
    ("ab" : String).data.all (fun c => !goIsSpace c) = true ∧
    ("cd" : String).data.all (fun c => !goIsSpace c) = true ∧
    ("ab" : String) ≠ "cd" ∧
    toClaudeSquadTmuxName ("ab") ≠ toClaudeSquadTmuxName ("cd") :=
  ⟨by decide, by decide, by decide,
   sanitized_name_injective_spacefree ("ab") ("cd") (by decide) (by decide) (by decide)⟩

/-- Claim C7: when `GlobalInstanceLimit` (10) instances already exist, the
new-instance and prompt keys reject the creation with the over-limit
banner and change nothing else; moreover one creation key can never push
the instance count beyond the limit. -/
theorem instance_limit_enforced (m : AppModel) (isPrompt : Bool)
    (newRes : Except String Instance) :
    (GlobalInstanceLimit ≤ m.instances.length →
      handleCreateKey m isPrompt newRes =
        { m with errMsg := some .overInstanceLimit }) ∧
    (m.instances.length ≤ GlobalInstanceLimit →
      (handleCreateKey m isPrompt newRes).instances.length ≤ GlobalInstanceLimit) := by
  constructor
  · intro h
    simp [handleCreateKey, h]
  · intro h
    by_cases hov : GlobalInstanceLimit ≤ m.instances.length
    · simpa [handleCreateKey, hov] using h
    · cases newRes with
      | error e => simpa [handleCreateKey, hov] using h
      | ok inst =>
        simp [handleCreateKey, hov]
        omega

/-- A home model already holding 10 instances. -/
def cexLimitModel : AppModel :=
  { instances := List.replicate 10 cexC3Inst
    mode := .main
    errMsg := none
    promptAfterName := false
    autoYes := false }

/-- Witness for C7: with 10 instances present, the prompt key is rejected
with the over-limit banner and the model is otherwise unchanged. -/
theorem instance_limit_enforced_witness :
    GlobalInstanceLimit ≤ cexLimitModel.instances.length ∧
    handleCreateKey cexLimitModel true (Except.ok cexC3Inst) =
      { cexLimitModel with errMsg := some .overInstanceLimit } :=
  ⟨by decide,
   (instance_limit_enforced cexLimitModel true (Except.ok cexC3Inst)).1 (by decide)⟩

/-- `SetTitle` succeeds on an unstarted instance when the new title is
nonempty, at most 32 characters and not already taken. -/
theorem setTitle_ok (i : Instance) (others : List String) (t : String)
    (h1 : i.started = false) (h2 : t ≠ "") (h3 : t.length ≤ 32)
    (h4 : others.contains t = false) :
    i.setTitle others t =
      .ok { i with
            title := t
            tmux := { i.tmux with
                      name := t
                      sanitizedName := toClaudeSquadTmuxName t } } := by
  have h4m : t ∉ others := by simpa using h4
  simp [Instance.setTitle, h1, h2, Nat.not_lt.mpr h3, h4m]

/-- `SetTitle` rejects a title longer than 32 characters on an unstarted
instance. -/
theorem setTitle_tooLong (i : Instance) (others : List String) (t : String)
    (h1 : i.started = false) (h3 : 32 < t.length) :
    i.setTitle others t = .error .tooLong := by
  have h2 : t ≠ "" := by
    intro he; rw [he] at h3; exact absurd h3 (by decide)
  simp [Instance.setTitle, h1, h2, h3]

/-- Claim C6: while naming a new instance (its unstarted record being the
last list entry), a rune keystroke completing a 32-character title is
accepted with no error; a rune keystroke on a full 32-byte title, a rune
keystroke that would exceed 32 characters and a space keystroke that would
exceed 32 characters are all rejected with an error and leave the list
unchanged; and submitting an empty title raises the empty-title error and
changes neither the list (so the instance stays unstarted) nor the UI
state. -/
theorem naming_title_rules (m : AppModel) (inst : Instance) (r : String)
    (sr vr : Except String Unit)
    (hlast : m.instances.getLast? = some inst)
    (hns : inst.started = false) :
    (inst.title.utf8ByteSize < 32 →
     (inst.title ++ r).length = 32 →
     ((m.instances.map (fun i => i.title)).dropLast).contains (inst.title ++ r) = false →
       (handleNameKey m (.runesKey r) sr vr).errMsg = m.errMsg ∧
       (handleNameKey m (.runesKey r) sr vr).instances.getLast?.map (fun i => i.title)
         = some (inst.title ++ r)) ∧
    (32 ≤ inst.title.utf8ByteSize →
       (handleNameKey m (.runesKey r) sr vr).errMsg = some .titleTooLong ∧
       (handleNameKey m (.runesKey r) sr vr).instances = m.instances) ∧
    (inst.title.utf8ByteSize < 32 → 32 < (inst.title ++ r).length →
       (handleNameKey m (.runesKey r) sr vr).errMsg = some (.setTitleFailed .tooLong) ∧
       (handleNameKey m (.runesKey r) sr vr).instances = m.instances) ∧
    (32 < (inst.title ++ " ").length →
       (handleNameKey m .spaceKey sr vr).errMsg = some (.setTitleFailed .tooLong) ∧
       (handleNameKey m .spaceKey sr vr).instances = m.instances) ∧
    (inst.title = "" →
       (handleNameKey m .submitName sr vr).errMsg = some .emptyTitle ∧
       (handleNameKey m .submitName sr vr).instances = m.instances ∧
       (handleNameKey m .submitName sr vr).mode = m.mode) := by
  refine ⟨?_, ?_, ?_, ?_, ?_⟩
  · intro hu hl hq
    have hne : inst.title ++ r ≠ "" := by
      intro he; rw [he] at hl; exact absurd hl (by decide)
    have hok := setTitle_ok inst ((m.instances.map (fun i => i.title)).dropLast)
      (inst.title ++ r) hns hne (le_of_eq hl) hq
    simp [handleNameKey, hlast, Nat.not_le.mpr hu, hok, List.setLast,
          List.getLast?_concat]
  · intro hu
    simp [handleNameKey, hlast, hu]
  · intro hu hl
    have htl := setTitle_tooLong inst ((m.instances.map (fun i => i.title)).dropLast)
      (inst.title ++ r) hns hl
    simp [handleNameKey, hlast, Nat.not_le.mpr hu, htl]
  · intro hl
    have htl := setTitle_tooLong inst ((m.instances.map (fun i => i.title)).dropLast)
      (inst.title ++ " ") hns hl
    simp [handleNameKey, hlast, htl]
  · intro he
    simp [handleNameKey, hlast, he]

/-- An unstarted instance being named, its title currently 31 characters. -/
def cexNameInst : Instance :=
  { title := "aaaaaaaaaaaaaaaaaaaaaaaaaaaaaaa"
    status := .ready
    started := false
    autoYes := false
    tmux := newTmuxSession ("aaaaaaaaaaaaaaaaaaaaaaaaaaaaaaa")
    diffStats := none }

/-- The home model during naming: the list holds just that instance. -/
def cexNameModel : AppModel :=
  { instances := [cexNameInst]
    mode := .naming
    errMsg := none
    promptAfterName := false
    autoYes := false }

/-- Witness for C6: typing one more character onto the 31-character title
yields a 32-character title, which is accepted without an error. -/
theorem naming_title_rules_witness :
    cexNameInst.title.utf8ByteSize < 32 ∧
    (cexNameInst.title ++ "b").length = 32 ∧
    ((cexNameModel.instances.map (fun i => i.title)).dropLast).contains
      (cexNameInst.title ++ "b") = false ∧
    ((handleNameKey cexNameModel (.runesKey ("b")) (Except.ok ()) (Except.ok ())).errMsg
       = cexNameModel.errMsg ∧
     (handleNameKey cexNameModel (.runesKey ("b")) (Except.ok ()) (Except.ok ())).instances.getLast?.map
        (fun i => i.title)
       = some (cexNameInst.title ++ "b")) :=
  ⟨by decide, by decide, by decide,
   (naming_title_rules cexNameModel cexNameInst ("b") (Except.ok ()) (Except.ok ())
      rfl rfl).1 (by decide) (by decide) (by decide)⟩

/-- Counterexample to claim C8: a read of the single byte `0x11` (Ctrl-Q)
during the 50 ms window is nuked by the discard branch — it is not treated
as a detach command. -/
theorem ctrlq_in_window_not_detach :
    stdinLoop [.readBytes 0 [17]] = [.nuked [17]] ∧
    StdinAct.detached ∉ stdinLoop [.readBytes 0 [17]] := by decide

/-- Claim C8 as amended: every read during the first 50 ms is discarded
(Ctrl-Q included); once the window has elapsed, a read of exactly the
single byte `0x11` triggers detach; and a chunk equal to the lone byte
`0x11` is never forwarded to the pty at any point. -/
theorem stdin_window_rules (t : Nat) (bs : List Nat) (rest : List StdinEv) :
    (t < 50 → stdinLoop (.readBytes t bs :: rest) = .nuked bs :: stdinLoop rest) ∧
    (50 ≤ t → bs = [17] → stdinLoop (.readBytes t bs :: rest) = [.detached]) ∧
    (∀ (evs : List StdinEv) (cs : List Nat),
       StdinAct.forwarded cs ∈ stdinLoop evs → cs ≠ [17]) := by
  refine ⟨?_, ?_, ?_⟩
  · intro h
    simp [stdinLoop, h]
  · intro h hb
    simp [stdinLoop, Nat.not_lt.mpr h, hb]
  · intro evs
    induction evs with
    | nil => intro cs h; simp [stdinLoop] at h
    | cons ev rest ih =>
      intro cs h
      cases ev with
      | readEOF => simp [stdinLoop] at h
      | readErr => exact ih cs (by simpa [stdinLoop] using h)
      | readBytes te be =>
        by_cases ht : te < 50
        · rw [stdinLoop, if_pos ht] at h
          rcases List.mem_cons.mp h with h1 | h2
          · exact absurd h1 (by simp)
          · exact ih cs h2
        · by_cases hb : be = [17]
          · rw [stdinLoop, if_neg ht, if_pos hb] at h
            simp at h
          · rw [stdinLoop, if_neg ht, if_neg hb] at h
            rcases List.mem_cons.mp h with h1 | h2
            · cases h1; exact hb
            · exact ih cs h2

/-- Witness for the amended C8: after the window, a lone Ctrl-Q read
detaches. -/
theorem stdin_window_rules_witness :
    50 ≤ 60 ∧ stdinLoop [.readBytes 60 [17]] = [.detached] :=
  ⟨by decide, (stdin_window_rules 60 [17] []).2.1 (by decide) rfl⟩

/-- Claim C9 at its failing input: `tmux ls` exiting with code 1 is
treated as success (first conjunct), but on a server holding the session
`claudesquad-alpha` the cleanup also reports success while killing nothing
— the `^claudesquad-\d+` match against the `ls` output finds no match
because `alpha` is not a digit run — so a session bearing the prefix
survives a successful bulk cleanup (remaining conjuncts). -/
theorem cleanup_sessions_at_failing_input :
    cleanupSessions (Except.error 1) ["claudesquad-alpha"]
      = Except.ok ["claudesquad-alpha"] ∧
    cleanupSessions (Except.ok ("claudesquad-alpha: 1 windows (created Thu)"))
        ["claudesquad-alpha"]
      = Except.ok ["claudesquad-alpha"] ∧
    listStartsWith ("claudesquad-alpha").data tmuxPrefixStr.data = true := by
  refine ⟨rfl, ?_, by decide⟩
  have hm : findSessionMatch ("claudesquad-alpha: 1 windows (created Thu)") = none := by
    decide
  simp [cleanupSessions, hm]

/-- Claim C10: when `term.MakeRaw` fails, `Attach` returns the wrapped
error and the session state is returned untouched — no saved terminal
state, attach channel, context/cancel pair or wait group is installed and
no reader goroutine is started — and a subsequent `Attach` whose `MakeRaw`
succeeds still works, installing the transient state and starting the
readers. -/
theorem attach_raw_failure_keeps_state (s : TmuxSession) (e : String) (n : Nat) :
    s.attach (Except.error e) = (some ("error making terminal raw: " ++ e), s) ∧
    ((s.attach (Except.error e)).2.attach (Except.ok n)).1 = none ∧
    ((s.attach (Except.error e)).2.attach (Except.ok n)).2.readersStarted = true ∧
    ((s.attach (Except.error e)).2.attach (Except.ok n)).2.oldState = some n := by
  exact ⟨rfl, rfl, rfl, rfl⟩
